import Mathlib

/-!
Shallow embedding of the dungeonDice dice/combat/AI core
(src/core/dice.py, src/core/character.py, src/game/combat.py, src/enemies/ai.py).

Python floats are modelled as rationals (ℚ); Python `int(x)` (truncation toward
zero) is modelled by `pyInt`; Python's global `random` draws are passed in as
explicit oracle values; Python in-place mutation is modelled by returning the
updated structure alongside the original return value.
-/

namespace DungeonDice

/-- Python `int(x)` on a float: truncation toward zero. -/
def pyInt (q : ℚ) : Int := if q < 0 then -(Int.floor (-q)) else Int.floor q

/-- `strHasPrefixL hay needle` : `needle` is a prefix of `hay` (char lists). -/
def strHasPrefixL : List Char → List Char → Bool
  | _, [] => true
  | [], _ :: _ => false
  | a :: as, b :: bs => a == b && strHasPrefixL as bs

/-- `strContainsL needle hay` : `needle` occurs as a contiguous substring of `hay`. -/
def strContainsL (needle : List Char) : List Char → Bool
  | [] => needle.isEmpty
  | c :: t => strHasPrefixL (c :: t) needle || strContainsL needle t

/-- Python `needle in hay` substring test on strings. -/
def strContains (hay needle : String) : Bool := strContainsL needle.data hay.data

/-- core/enums.py `DiceType`. -/
inductive DiceType
  | CHARACTER
  | COMBAT
  | ENCOUNTER
  | SPECIAL
  | FATE
deriving DecidableEq, Inhabited

/-- Python `str(DiceType.X)` (used in boss ability keys). -/
def DiceType.pyStr : DiceType → String
  | .CHARACTER => "DiceType.CHARACTER"
  | .COMBAT => "DiceType.COMBAT"
  | .ENCOUNTER => "DiceType.ENCOUNTER"
  | .SPECIAL => "DiceType.SPECIAL"
  | .FATE => "DiceType.FATE"

/-- core/enums.py `FaceCategory`. -/
inductive FaceCategory
  | TRAIT
  | COMBAT
  | EFFECT
  | UTILITY
  | META
deriving DecidableEq, Inhabited

/-- Python `FaceCategory.X.name` (categories are passed around as strings). -/
def FaceCategory.pyName : FaceCategory → String
  | .TRAIT => "TRAIT"
  | .COMBAT => "COMBAT"
  | .EFFECT => "EFFECT"
  | .UTILITY => "UTILITY"
  | .META => "META"

/-- core/enums.py `ImbalanceEffect`. -/
inductive ImbalanceEffect
  | NONE
  | UNSTABLE
  | OVERLOADED
  | CURSED
  | BLESSED
  | CHAOTIC
  | SYNCHRONIZED
deriving DecidableEq, Inhabited

/-- core/enums.py `Rarity`. -/
inductive Rarity
  | COMMON
  | UNCOMMON
  | RARE
  | EPIC
  | LEGENDARY
deriving DecidableEq, Inhabited

/-- core/enums.py `EnemyType`. -/
inductive EnemyType
  | GOBLIN
  | SKELETON
  | ORC
  | ZOMBIE
  | GHOST
  | SLIME
  | MINOTAUR
  | DRAGON
deriving DecidableEq, Inhabited

/-- core/dice.py `DiceFace` (the unserializable `effect_function` is omitted;
resource costs are an association list standing for a Python dict). -/
structure DiceFace where
  name : String
  value : Int
  category : FaceCategory
  effect_description : String := ""
  rarity : Rarity := Rarity.COMMON
  cost : List (String × Int) := []
  synergies : List String := []
deriving DecidableEq, Inhabited

/-- core/dice.py `Dice` (the `modifiers` dict is never read by the core and omitted). -/
structure Dice where
  name : String
  dice_type : DiceType
  size : Nat
  rarity : Rarity := Rarity.COMMON
  description : String := ""
  faces : List DiceFace := []
  level : Int := 1
  xp : Int := 0
  xp_to_next_level : Int := 100
  cooldown : Int := 0
  balance_value : Int := 0
  imbalance_effect : ImbalanceEffect := ImbalanceEffect.NONE
  imbalance_severity : ℚ := 0
deriving DecidableEq, Inhabited

/-- core/dice.py `Dice._calculate_balance`. -/
def Dice.calculate_balance (d : Dice) : Dice :=
  let bv : Int := (d.faces.map DiceFace.value).sum
  if bv = 0 then
    { d with balance_value := bv, imbalance_effect := ImbalanceEffect.NONE,
             imbalance_severity := 0 }
  else if bv < 0 then
    { d with balance_value := bv, imbalance_effect := ImbalanceEffect.UNSTABLE,
             imbalance_severity := min 1 ((bv.natAbs : ℚ) / ((d.size : ℚ) * 2)) }
  else
    { d with balance_value := bv, imbalance_effect := ImbalanceEffect.OVERLOADED,
             imbalance_severity := min 1 ((bv : ℚ) / ((d.size : ℚ) * 2)) }

/-- core/dice.py `Dice.__post_init__`: recompute balance when faces are given. -/
def Dice.post_init (d : Dice) : Dice :=
  if d.faces = [] then d else d.calculate_balance

/-- Construct a `Dice` the way the Python dataclass constructor does
(field defaults, then `__post_init__`). -/
def mkDice (name : String) (dt : DiceType) (size : Nat) (faces : List DiceFace) : Dice :=
  Dice.post_init { name := name, dice_type := dt, size := size, faces := faces }

/-- core/dice.py `Dice.add_face`; returns the Python result plus the updated die. -/
def Dice.add_face (d : Dice) (face : DiceFace) : Bool × Dice :=
  if d.size ≤ d.faces.length then (false, d)
  else (true, Dice.calculate_balance { d with faces := d.faces ++ [face] })

/-- core/dice.py `Dice.remove_face`. -/
def Dice.remove_face (d : Dice) (index : Int) : Option DiceFace × Dice :=
  if 0 ≤ index ∧ index < (d.faces.length : Int) then
    let i := index.toNat
    (d.faces.get? i, Dice.calculate_balance { d with faces := d.faces.eraseIdx i })
  else (none, d)

/-- core/dice.py `Dice.replace_face`. -/
def Dice.replace_face (d : Dice) (index : Int) (new_face : DiceFace) : Option DiceFace × Dice :=
  if 0 ≤ index ∧ index < (d.faces.length : Int) then
    let i := index.toNat
    (d.faces.get? i, Dice.calculate_balance { d with faces := d.faces.set i new_face })
  else (none, d)

/-- core/dice.py `Dice.level_up` (`int(xp_to_next_level * 1.5)`; 1.5 is exact in
binary floating point, so the product of an int with it is modelled exactly by ℚ). -/
def Dice.level_up (d : Dice) : Dice :=
  { d with level := d.level + 1,
           xp := d.xp - d.xp_to_next_level,
           xp_to_next_level := pyInt ((d.xp_to_next_level : ℚ) * (3 / 2)) }

/-- core/dice.py `Dice.add_xp`; returns (leveled_up, updated die). -/
def Dice.add_xp (d : Dice) (amount : Int) : Bool × Dice :=
  let d1 : Dice := { d with xp := d.xp + amount }
  if d1.xp_to_next_level ≤ d1.xp then (true, d1.level_up) else (false, d1)

/-- Oracle for the random draws one call of `Dice.roll` can make:
`u` models the `random.random()` float compared against the severity,
`i1`, `i2`, `i3` model `random.choice` picks (index into the face list). -/
structure RollRng where
  u : ℚ := 0
  i1 : Nat := 0
  i2 : Nat := 0
  i3 : Nat := 0
deriving DecidableEq, Inhabited

/-- Python `random.choice(l)` as an index pick; only evaluated on non-empty
lists (`random.choice` raises on an empty list, unreachable in `roll`). -/
def pyChoiceFace (l : List DiceFace) (i : Nat) : DiceFace :=
  l.getD (i % l.length) default

/-- core/dice.py `Dice.roll`: returns ((face?, message, effect tags), updated die). -/
def Dice.roll (d : Dice) (rng : RollRng) : (Option DiceFace × String × List String) × Dice :=
  if d.faces = [] then ((none, "Die has no faces!", []), d)
  else if 0 < d.cooldown then
    let d1 : Dice := { d with cooldown := d.cooldown - 1 }
    ((none, d1.name ++ " is on cooldown for " ++ toString (d1.cooldown + 1) ++ " more turns.", []),
      d1)
  else if d.imbalance_effect = ImbalanceEffect.UNSTABLE ∧ rng.u < d.imbalance_severity then
    let roll1 := pyChoiceFace d.faces rng.i1
    let roll2 := pyChoiceFace d.faces rng.i2
    let result := if roll1.value < roll2.value then roll1 else roll2
    ((some result,
      "UNSTABLE: Rolled " ++ roll1.name ++ " and " ++ roll2.name ++ ", took worse result "
        ++ result.name ++ ".",
      ["Unstable: Double Roll"]), d)
  else
    let result := pyChoiceFace d.faces rng.i3
    let d1 := (d.add_xp 10).2
    ((some result, "Normal roll.", []), d1)

/-- core/character.py `CharacterStats` (the `resistances` dict is never read by
the combat core and is omitted; dict-valued attributes are association lists). -/
structure CharacterStats where
  health : Int := 100
  max_health : Int := 100
  mana : Int := 50
  max_mana : Int := 50
  physical_damage : Int := 10
  magic_damage : Int := 10
  speed : Int := 5
  dodge : ℚ := 1 / 10
  crit_chance : ℚ := 1 / 20
  crit_damage : ℚ := 3 / 2
  status_effects : List (String × Int) := []
  passive_bonuses : List (String × ℚ) := []
deriving DecidableEq, Inhabited

/-- Python dict assignment `m[k] = v` on an association list. -/
def dictSet (m : List (String × ℚ)) (k : String) (v : ℚ) : List (String × ℚ) :=
  if m.any (fun p => p.1 == k) then
    m.map (fun p => if p.1 == k then (k, v) else p)
  else m ++ [(k, v)]

/-- core/character.py `CharacterStats.apply_trait`; returns (message, updated stats).
The generic `hasattr`/`setattr` branch is modelled over the numeric attributes of
the class; a trait name matching a dict-valued or callable attribute would raise
a `TypeError` in the source and is outside this model. -/
def CharacterStats.apply_trait (s : CharacterStats) (name : String) (value : Int) :
    String × CharacterStats :=
  let updown : String := if 0 < value then "increased" else "decreased"
  if name = "Strength" then
    ("Physical damage " ++ updown ++ " by " ++ toString (value.natAbs),
      { s with physical_damage := s.physical_damage + value })
  else if name = "Intelligence" then
    ("Magic damage " ++ updown ++ " by " ++ toString (value.natAbs),
      { s with magic_damage := s.magic_damage + value })
  else if name = "Vitality" then
    let percent := value * 10
    let health_change := pyInt (((s.max_health * percent : Int) : ℚ) / 100)
    ("Max health " ++ updown ++ " by " ++ toString percent.natAbs ++ "%",
      { s with max_health := s.max_health + health_change,
               health := s.health + health_change })
  else if name = "Agility" then
    ("Speed " ++ updown ++ " by " ++ toString (value.natAbs),
      { s with speed := s.speed + value, dodge := s.dodge + (value : ℚ) * (2 / 100) })
  else if name = "Weakness" then
    ("Physical damage decreased by " ++ toString (value.natAbs),
      { s with physical_damage := max 1 (s.physical_damage + value) })
  else if name = "Frailty" then
    let percent := value * 10
    let health_change := pyInt (((s.max_health * percent : Int) : ℚ) / 100)
    let new_max := max 1 (s.max_health + health_change)
    ("Max health decreased by " ++ toString percent.natAbs ++ "%",
      { s with max_health := new_max, health := min s.health new_max })
  else if name = "Slowness" then
    ("Speed decreased by " ++ toString (value.natAbs),
      { s with speed := max 1 (s.speed + value),
               dodge := max 0 (s.dodge + (value : ℚ) * (2 / 100)) })
  else if name = "Stupidity" then
    ("Magic damage decreased by " ++ toString (value.natAbs),
      { s with magic_damage := max 1 (s.magic_damage + value) })
  else
    let stat_name := name.toLower
    let genericMsg := name ++ " " ++ updown ++ " by " ++ toString (value.natAbs)
    if stat_name = "health" then (genericMsg, { s with health := s.health + value })
    else if stat_name = "max_health" then (genericMsg, { s with max_health := s.max_health + value })
    else if stat_name = "mana" then (genericMsg, { s with mana := s.mana + value })
    else if stat_name = "max_mana" then (genericMsg, { s with max_mana := s.max_mana + value })
    else if stat_name = "physical_damage" then
      (genericMsg, { s with physical_damage := s.physical_damage + value })
    else if stat_name = "magic_damage" then
      (genericMsg, { s with magic_damage := s.magic_damage + value })
    else if stat_name = "speed" then (genericMsg, { s with speed := s.speed + value })
    else if stat_name = "dodge" then (genericMsg, { s with dodge := s.dodge + (value : ℚ) })
    else if stat_name = "crit_chance" then
      (genericMsg, { s with crit_chance := s.crit_chance + (value : ℚ) })
    else if stat_name = "crit_damage" then
      (genericMsg, { s with crit_damage := s.crit_damage + (value : ℚ) })
    else
      ("Added " ++ name ++ " (" ++ toString value ++ ") as a passive bonus",
        { s with passive_bonuses := dictSet s.passive_bonuses name (value : ℚ) })

/-- core/dice.py `DiceSet`. -/
structure DiceSet where
  character_dice : List Dice := []
  combat_dice : List Dice := []
  encounter_dice : List Dice := []
  special_dice : List Dice := []
  fate_dice : List Dice := []
deriving DecidableEq, Inhabited

/-- core/dice.py `DiceSet.get_dice_list`. -/
def DiceSet.get_dice_list (ds : DiceSet) : DiceType → List Dice
  | DiceType.CHARACTER => ds.character_dice
  | DiceType.COMBAT => ds.combat_dice
  | DiceType.ENCOUNTER => ds.encounter_dice
  | DiceType.SPECIAL => ds.special_dice
  | DiceType.FATE => ds.fate_dice

/-- Write back a per-type dice list (Python mutates the aliased list in place). -/
def DiceSet.set_dice_list (ds : DiceSet) : DiceType → List Dice → DiceSet
  | DiceType.CHARACTER, l => { ds with character_dice := l }
  | DiceType.COMBAT, l => { ds with combat_dice := l }
  | DiceType.ENCOUNTER, l => { ds with encounter_dice := l }
  | DiceType.SPECIAL, l => { ds with special_dice := l }
  | DiceType.FATE, l => { ds with fate_dice := l }

/-- core/character.py `Character`. -/
structure Character where
  name : String
  stats : CharacterStats := {}
  dice_set : DiceSet := {}
  level : Int := 1
  xp : Int := 0
  xp_to_next_level : Int := 100
  active_faces : List String := []
  character_class : String := "Adventurer"
deriving DecidableEq, Inhabited

/-- core/character.py `Character.level_up`; returns (message, updated character). -/
def Character.level_up (c : Character) : String × Character :=
  let level := c.level + 1
  let xp := c.xp - c.xp_to_next_level
  let xptnl := pyInt ((c.xp_to_next_level : ℚ) * (3 / 2))
  let health_increase := level * 5
  let stats := c.stats
  let stats := { stats with
    max_health := stats.max_health + health_increase,
    health := stats.health + health_increase,
    max_mana := stats.max_mana + level * 2 }
  let stats := { stats with mana := stats.max_mana }
  let stats := { stats with
    physical_damage := stats.physical_damage + 1,
    magic_damage := stats.magic_damage + 1 }
  let stats := if level % 3 = 0 then { stats with speed := stats.speed + 1 } else stats
  ("Reached level " ++ toString level ++ "! Health +" ++ toString health_increase ++ ", damage +1",
    { c with level := level, xp := xp, xp_to_next_level := xptnl, stats := stats })

/-- core/character.py `Character.add_xp`; returns (leveled_up, updated character). -/
def Character.add_xp (c : Character) (amount : Int) : Bool × Character :=
  let c1 : Character := { c with xp := c.xp + amount }
  if c1.xp_to_next_level ≤ c1.xp then (true, (c1.level_up).2) else (false, c1)

/-- The roll-result dict built by core/character.py `Character.roll_die`. -/
structure RollInfo where
  name : String
  value : Int
  category : String
  description : String
  effects : List String
deriving DecidableEq, Inhabited

/-- core/character.py `Character.roll_die`; returns ((result?, message), updated character). -/
def Character.roll_die (c : Character) (dt : DiceType) (index : Int) (rng : RollRng) :
    (Option RollInfo × String) × Character :=
  let dice_list := c.dice_set.get_dice_list dt
  if index < 0 ∨ (dice_list.length : Int) ≤ index then ((none, "Invalid die selection"), c)
  else
    let i := index.toNat
    let die := dice_list.getD i default
    let rolled := die.roll rng
    let result := rolled.1.1
    let message := rolled.1.2.1
    let effects := rolled.1.2.2
    let c1 : Character :=
      { c with dice_set := c.dice_set.set_dice_list dt (dice_list.set i rolled.2) }
    match result with
    | some face =>
      let applied :=
        if face.category = FaceCategory.TRAIT then c1.stats.apply_trait face.name face.value
        else ("", c1.stats)
      let c2 : Character := { c1 with stats := applied.2 }
      let af := c2.active_faces ++ [face.name]
      let af := if 10 < af.length then af.drop (af.length - 10) else af
      let c3 : Character := { c2 with active_faces := af }
      ((some { name := face.name, value := face.value, category := face.category.pyName,
               description := face.effect_description, effects := effects },
        message ++ " " ++ applied.1), c3)
    | none => ((none, message), c1)

/-- game/dungeon.py `Enemy`. -/
structure Enemy where
  name : String
  enemy_type : EnemyType
  level : Int := 1
  health : Int := 10
  max_health : Int := 10
  damage : Int := 1
  gold_reward : Int := 0
  xp_reward : Int := 0
deriving DecidableEq, Inhabited

/-- game/combat.py `CombatResult`. -/
structure CombatResult where
  success : Bool
  message : String
  damage_dealt : Int := 0
  healing_done : Int := 0
  status_applied : Option String := none
  target_defeated : Bool := false
deriving DecidableEq, Inhabited

/-- Outcome of one combat-system handler: the result record plus the state the
Python code mutates in place (player, target, combat log). -/
structure TurnOutcome where
  result : CombatResult
  player : Character
  target : Enemy
  log : List String
deriving DecidableEq, Inhabited

/-- game/combat.py `CombatSystem._handle_combat_face`. -/
def CombatSystem.handle_combat_face (log : List String) (player : Character) (target : Enemy)
    (face_name : String) (face_value : Int) (critU : ℚ) : TurnOutcome :=
  let base_damage := player.stats.physical_damage
  let damage_multiplier : ℚ :=
    if strContains face_name "Heavy" then 3 / 2
    else if strContains face_name "Quick" then 4 / 5
    else 1
  let damage := pyInt ((base_damage : ℚ) * damage_multiplier) + face_value
  let is_critical := critU < player.stats.crit_chance
  let damage := if is_critical then pyInt ((damage : ℚ) * player.stats.crit_damage) else damage
  let target1 : Enemy := { target with health := target.health - damage }
  let target_defeated : Bool := decide (target1.health ≤ 0)
  let target2 : Enemy := if target_defeated then { target1 with health := 0 } else target1
  let message :=
    (if is_critical then "CRITICAL HIT! " else "")
      ++ face_name ++ " deals " ++ toString damage ++ " damage to " ++ target2.name ++ "!"
  let message :=
    if target_defeated then message ++ " " ++ target2.name ++ " is defeated!" else message
  { result := { success := true, message := message, damage_dealt := damage,
                target_defeated := target_defeated },
    player := player, target := target2, log := log ++ [message] }

/-- game/combat.py `CombatSystem._handle_healing` (the target is untouched there). -/
def CombatSystem.handle_healing (log : List String) (player : Character) (target : Enemy)
    (face_name : String) (face_value : Int) : TurnOutcome :=
  let heal_amount := if strContains face_name "Major" then 30 + face_value * 2 else 15 + face_value
  let old_health := player.stats.health
  let new_health := min (player.stats.health + heal_amount) player.stats.max_health
  let player1 : Character := { player with stats := { player.stats with health := new_health } }
  let actual_heal := new_health - old_health
  let message := face_name ++ " restores " ++ toString actual_heal ++ " health"
  { result := { success := true, message := message, healing_done := actual_heal },
    player := player1, target := target, log := log ++ [message] }

/-- game/combat.py `CombatSystem._handle_status_effect`: the source produces only
a message and a result flag; the target's status map is not mutated. -/
def CombatSystem.handle_status_effect (log : List String) (player : Character) (target : Enemy)
    (effect : String) (duration : Int) (face_name : String) : TurnOutcome :=
  let message :=
    face_name ++ " applies " ++ effect ++ " to " ++ target.name ++ " for "
      ++ toString duration ++ " turns"
  { result := { success := true, message := message, status_applied := some effect },
    player := player, target := target, log := log ++ [message] }

/-- game/combat.py `CombatSystem._handle_effect_face`. -/
def CombatSystem.handle_effect_face (log : List String) (player : Character) (target : Enemy)
    (face_name : String) (face_value : Int) : TurnOutcome :=
  if strContains face_name "Heal" then
    CombatSystem.handle_healing log player target face_name face_value
  else if strContains face_name "Bleed" then
    CombatSystem.handle_status_effect log player target "Bleeding" 3 face_name
  else if strContains face_name "Poison" then
    CombatSystem.handle_status_effect log player target "Poisoned" 3 face_name
  else if strContains face_name "Stun" then
    CombatSystem.handle_status_effect log player target "Stunned" 1 face_name
  else
    { result := { success := true, message := "Used " ++ face_name ++ " effect" },
      player := player, target := target,
      log := log ++ ["Player used " ++ face_name ++ " effect"] }

/-- game/combat.py `CombatSystem._process_player_action`. -/
def CombatSystem.process_player_action (log : List String) (player : Character) (target : Enemy)
    (roll_result : RollInfo) (critU : ℚ) : TurnOutcome :=
  if roll_result.category = "COMBAT" then
    CombatSystem.handle_combat_face log player target roll_result.name roll_result.value critU
  else if roll_result.category = "EFFECT" then
    CombatSystem.handle_effect_face log player target roll_result.name roll_result.value
  else
    { result := { success := true, message := "Used " ++ roll_result.name },
      player := player, target := target,
      log := log ++ ["Player used " ++ roll_result.name ++ ": " ++ roll_result.description] }

/-- Oracle for the random draws one `player_turn` can make. -/
structure CombatRng where
  roll : RollRng := {}
  critU : ℚ := 1
deriving DecidableEq, Inhabited

/-- Outcome of game/combat.py `CombatSystem.player_turn`. -/
structure PlayerTurnOutcome where
  result : CombatResult
  player : Character
  enemies : List Enemy
  log : List String
deriving DecidableEq, Inhabited

/-- game/combat.py `CombatSystem.player_turn`. -/
def CombatSystem.player_turn (log : List String) (player : Character) (enemies : List Enemy)
    (dt : DiceType) (dice_index : Int) (target_index : Int) (rng : CombatRng) :
    PlayerTurnOutcome :=
  if enemies = [] ∨ target_index < 0 ∨ (enemies.length : Int) ≤ target_index then
    { result := { success := false, message := "Invalid target!" },
      player := player, enemies := enemies, log := log }
  else
    let rolled := player.roll_die dt dice_index rng.roll
    let player1 := rolled.2
    match rolled.1.1 with
    | none =>
      { result := { success := false, message := rolled.1.2 },
        player := player1, enemies := enemies,
        log := log ++ ["Player rolled but got no result: " ++ rolled.1.2] }
    | some roll_result =>
      let i := target_index.toNat
      let target := enemies.getD i default
      let o := CombatSystem.process_player_action log player1 target roll_result rng.critU
      { result := o.result, player := o.player, enemies := enemies.set i o.target, log := o.log }

/-- The face dict inside the dice-info dicts handed to enemies/ai.py
(fields `name`, `value`, `category` — category as an enum-name string). -/
structure FaceInfo where
  name : String
  value : Int
  category : String
deriving DecidableEq, Inhabited

/-- The dice-info dict handed to enemies/ai.py (field `faces`). -/
structure DiceInfo where
  faces : List FaceInfo
deriving DecidableEq, Inhabited

/-- One entry of `enemy_dice`: a (dice_type, dice_index, dice_info) tuple. -/
abbrev AvailableDie := DiceType × Nat × DiceInfo

/-- Python `random.choice` over the available-dice list (index pick; the list is
non-empty at every call site by the guard at the top of each behavior). -/
def pyChoiceDie (l : List AvailableDie) (i : Nat) : DiceType × Nat :=
  let p := l.getD (i % l.length) default
  (p.1, p.2.1)

/-- Python `random.choice` over a list of (dice_type, dice_index) pairs. -/
def pyChoicePair (l : List (DiceType × Nat)) (i : Nat) : DiceType × Nat :=
  l.getD (i % l.length) default

/-- enemies/ai.py `RandomBehavior.decide_action`. -/
def randomDecide (enemy_dice : List AvailableDie) (idx : Nat) : DiceType × Nat :=
  if enemy_dice = [] then (DiceType.COMBAT, 0)
  else pyChoiceDie enemy_dice idx

/-- Stable insertion placing `x` before the first element of not-larger key:
models Python's stable `list.sort(key=..., reverse=True)`. -/
def insertByDesc (key : DiceType × Nat × Int → Int) (x : DiceType × Nat × Int) :
    List (DiceType × Nat × Int) → List (DiceType × Nat × Int)
  | [] => [x]
  | y :: ys => if key y ≤ key x then x :: y :: ys else y :: insertByDesc key x ys

/-- Stable descending sort by key. -/
def sortByDesc (key : DiceType × Nat × Int → Int) :
    List (DiceType × Nat × Int) → List (DiceType × Nat × Int)
  | [] => []
  | x :: xs => insertByDesc key x (sortByDesc key xs)

/-- enemies/ai.py `AggressiveBehavior.decide_action`; `fallbackIdx` models the
final `random.choice` draw. -/
def aggressiveDecide (enemy_dice : List AvailableDie) (fallbackIdx : Nat) : DiceType × Nat :=
  if enemy_dice = [] then (DiceType.COMBAT, 0)
  else
    let attack_dice := enemy_dice.filterMap (fun e =>
      if e.1 = DiceType.COMBAT then
        let attack_faces := e.2.2.faces.filter
          (fun f => f.category == "COMBAT" && strContains f.name "Attack")
        if attack_faces.isEmpty then none
        else
          let attack_score :=
            ((attack_faces.filter (fun f => 0 < f.value)).map FaceInfo.value).sum
          some (e.1, e.2.1, attack_score)
      else none)
    if attack_dice.isEmpty = false then
      match sortByDesc (fun t => t.2.2) attack_dice with
      | t :: _ => (t.1, t.2.1)
      | [] => (DiceType.COMBAT, 0)
    else
      match enemy_dice.filter (fun e => e.1 = DiceType.COMBAT) with
      | e :: _ => (e.1, e.2.1)
      | [] => pyChoiceDie enemy_dice fallbackIdx

/-- Oracle for the random draws a `DefensiveBehavior` decision can make
(only the inner Aggressive fallback draw). -/
structure DefRng where
  aggro : Nat := 0
deriving DecidableEq, Inhabited

/-- enemies/ai.py `DefensiveBehavior.decide_action`. -/
def defensiveDecide (enemy : Enemy) (enemy_dice : List AvailableDie) (rng : DefRng) :
    DiceType × Nat :=
  if enemy_dice = [] then (DiceType.COMBAT, 0)
  else
    let health_percentage : ℚ := (enemy.health : ℚ) / (enemy.max_health : ℚ)
    let healPick :=
      if health_percentage < 3 / 10 then
        enemy_dice.find? (fun e => (e.2.2.faces.filter (fun f =>
          strContains f.name "Heal" || strContains f.name "Defense"
            || strContains f.name "Block")).isEmpty = false)
      else none
    match healPick with
    | some e => (e.1, e.2.1)
    | none =>
      if ¬ (health_percentage < 3 / 10) ∧ health_percentage < 6 / 10 then
        match enemy_dice.filter (fun e => e.1 = DiceType.COMBAT) with
        | e :: _ => (e.1, e.2.1)
        | [] => aggressiveDecide enemy_dice rng.aggro
      else aggressiveDecide enemy_dice rng.aggro

/-- Oracle for the random draws a `TacticalBehavior` decision can make. -/
structure TacRng where
  aggro : Nat := 0
  defRng : DefRng := {}
  u : ℚ := 1
  statusIdx : Nat := 0
  mixIdx : Nat := 0
  aggro2 : Nat := 0
  defRng2 : DefRng := {}
deriving DecidableEq, Inhabited

/-- enemies/ai.py `TacticalBehavior.decide_action`. -/
def tacticalDecide (enemy : Enemy) (player : Character) (enemy_dice : List AvailableDie)
    (rng : TacRng) : DiceType × Nat :=
  if enemy_dice = [] then (DiceType.COMBAT, 0)
  else
    let ehp : ℚ := (enemy.health : ℚ) / (enemy.max_health : ℚ)
    let php : ℚ := (player.stats.health : ℚ) / (player.stats.max_health : ℚ)
    if php + 3 / 10 < ehp then aggressiveDecide enemy_dice rng.aggro
    else if ehp < php - 3 / 10 then defensiveDecide enemy enemy_dice rng.defRng
    else
      let status_dice := enemy_dice.filterMap (fun e =>
        if (e.2.2.faces.filter (fun f => f.category == "EFFECT")).isEmpty = false then
          some (e.1, e.2.1)
        else none)
      if status_dice ≠ [] ∧ rng.u < 6 / 10 then pyChoicePair status_dice rng.statusIdx
      else
        let a := aggressiveDecide enemy_dice rng.aggro2
        let b := defensiveDecide enemy enemy_dice rng.defRng2
        if rng.mixIdx % 2 = 0 then a else b

/-- The mutable per-instance state of enemies/ai.py `BossBehavior`
(`phase_abilities_used` is a Python set, modelled as a membership list). -/
structure BossState where
  turn_count : Int := 0
  phase : Int := 1
  phase_abilities_used : List String := []
deriving DecidableEq, Inhabited

/-- The f-string key `f"{dice_type}_{dice_index}_ultimate"` of the boss's
phase-3 ability bookkeeping. -/
def ultimateKey (dt : DiceType) (di : Nat) : String :=
  dt.pyStr ++ "_" ++ toString di ++ "_ultimate"

/-- The phase-3 search loop of `BossBehavior.decide_action`: the first available
die having an "Ultimate"-named face of value ≥ 4 whose key is not yet used. -/
def ultimateLookup (used : List String) (enemy_dice : List AvailableDie) :
    Option (DiceType × Nat) :=
  (enemy_dice.find? (fun e =>
    e.2.2.faces.any (fun f => strContains f.name "Ultimate" && 4 ≤ f.value)
      && !(used.contains (ultimateKey e.1 e.2.1)))).map (fun e => (e.1, e.2.1))

/-- enemies/ai.py `BossBehavior.decide_action`, given the behavior instance's
mutable state; returns the choice plus the updated state. -/
def bossDecide (st : BossState) (enemy : Enemy) (player : Character)
    (enemy_dice : List AvailableDie) (rng : TacRng) : (DiceType × Nat) × BossState :=
  if enemy_dice = [] then ((DiceType.COMBAT, 0), st)
  else
    let st1 : BossState := { st with turn_count := st.turn_count + 1 }
    let health_percentage : ℚ := (enemy.health : ℚ) / (enemy.max_health : ℚ)
    let new_phase : Int :=
      if health_percentage < 3 / 10 then 3
      else if health_percentage < 6 / 10 then 2
      else 1
    let st2 : BossState :=
      if new_phase ≠ st1.phase then { st1 with phase := new_phase, phase_abilities_used := [] }
      else st1
    let fallback : (DiceType × Nat) × BossState :=
      if st2.turn_count % 3 = 0 then
        match enemy_dice.find? (fun e => e.1 = DiceType.SPECIAL) with
        | some e => ((e.1, e.2.1), st2)
        | none => (tacticalDecide enemy player enemy_dice rng, st2)
      else (tacticalDecide enemy player enemy_dice rng, st2)
    if st2.phase = 3 then
      match ultimateLookup st2.phase_abilities_used enemy_dice with
      | some p =>
        (p, { st2 with phase_abilities_used := st2.phase_abilities_used ++ [ultimateKey p.1 p.2] })
      | none => fallback
    else if st2.phase = 2 then
      if st2.phase_abilities_used.contains "phase2_heal" = false then
        match enemy_dice.find? (fun e =>
          (e.2.2.faces.filter (fun f => strContains f.name "Heal")).isEmpty = false) with
        | some e => ((e.1, e.2.1), { st2 with
            phase_abilities_used := st2.phase_abilities_used ++ ["phase2_heal"] })
        | none => fallback
      else fallback
    else fallback

/-- Python dict lookup on an association list keyed by strings. -/
def dictGetStr (m : List (String × String)) (k : String) : Option String :=
  (m.find? (fun p => p.1 == k)).map Prod.snd

/-- Python dict lookup on an association list keyed by enemy types. -/
def dictGetType (m : List (EnemyType × String)) (k : EnemyType) : Option String :=
  (m.find? (fun p => p.1 == k)).map Prod.snd

/-- enemies/ai.py `EnemyAI`: the registry. The `behaviors` dict holds one
instance per key; only the `"boss"` entry carries mutable state, modelled by
the single `boss_state` field (the one `BossBehavior()` instance constructed
in `EnemyAI.__init__`). The stateless behavior instances are represented by
their keys alone. -/
structure EnemyAIState where
  behavior_keys : List String := ["random", "aggressive", "defensive", "tactical", "boss"]
  boss_state : BossState := {}
  enemy_type_behaviors : List (EnemyType × String) :=
    [(EnemyType.GOBLIN, "aggressive"), (EnemyType.SKELETON, "random"),
     (EnemyType.ORC, "aggressive"), (EnemyType.ZOMBIE, "defensive"),
     (EnemyType.GHOST, "tactical"), (EnemyType.SLIME, "defensive"),
     (EnemyType.MINOTAUR, "aggressive"), (EnemyType.DRAGON, "boss")]
  custom_behaviors : List (String × String) := []
deriving DecidableEq, Inhabited

/-- The registry as built by `EnemyAI.__init__` (the module-global `enemy_ai`). -/
def initEnemyAI : EnemyAIState := {}

/-- The boss-name substring pattern of `EnemyAI.get_behavior`. -/
def bossNamePattern (name : String) : Bool :=
  strContains name "Boss" || strContains name "Lord" || strContains name "King"
    || ["Grubnosh", "Bonecrusher", "Grimfang", "Flamescale"].any (fun n => strContains name n)

/-- enemies/ai.py `EnemyAI.get_behavior`, as the key of the behavior instance it
returns (behavior instances live in the `behaviors` dict, one per key). -/
def getBehaviorKey (ai : EnemyAIState) (enemy : Enemy) : String :=
  match dictGetStr ai.custom_behaviors enemy.name with
  | some behavior_key => behavior_key
  | none =>
    if bossNamePattern enemy.name then "boss"
    else
      match dictGetType ai.enemy_type_behaviors enemy.enemy_type with
      | some behavior_key => behavior_key
      | none => "random"

/-- Oracle for the random draws one `EnemyAI.decide_action` call can make. -/
structure AiRng where
  randomIdx : Nat := 0
  aggro : Nat := 0
  defRng : DefRng := {}
  tac : TacRng := {}
deriving DecidableEq, Inhabited

/-- enemies/ai.py `EnemyAI.decide_action`: dispatch to the behavior instance
under the selected key; the boss instance's state is read from and written back
to the registry (keys outside the five built-in ones would be custom
registrations, outside this model's scope). -/
def EnemyAIState.decide_action (ai : EnemyAIState) (enemy : Enemy) (player : Character)
    (enemy_dice : List AvailableDie) (rng : AiRng) : (DiceType × Nat) × EnemyAIState :=
  let key := getBehaviorKey ai enemy
  if key = "boss" then
    let r := bossDecide ai.boss_state enemy player enemy_dice rng.tac
    (r.1, { ai with boss_state := r.2 })
  else if key = "aggressive" then (aggressiveDecide enemy_dice rng.aggro, ai)
  else if key = "defensive" then (defensiveDecide enemy enemy_dice rng.defRng, ai)
  else if key = "tactical" then (tacticalDecide enemy player enemy_dice rng.tac, ai)
  else (randomDecide enemy_dice rng.randomIdx, ai)

/-- The pure function of `balance_value` and `size` that claim C3 asserts the
imbalance fields always follow (the §4.1 formulas). -/
def imbalanceOf (bv : Int) (size : Nat) : ImbalanceEffect × ℚ :=
  if bv = 0 then (ImbalanceEffect.NONE, 0)
  else if bv < 0 then (ImbalanceEffect.UNSTABLE, min 1 ((bv.natAbs : ℚ) / ((size : ℚ) * 2)))
  else (ImbalanceEffect.OVERLOADED, min 1 ((bv : ℚ) / ((size : ℚ) * 2)))

/-- The balance invariant: `balance_value` is the sum of the current face values
and the imbalance fields are the pure function `imbalanceOf` of it and `size`. -/
def balancedInv (d : Dice) : Prop :=
  d.balance_value = (d.faces.map DiceFace.value).sum ∧
  (d.imbalance_effect, d.imbalance_severity) = imbalanceOf d.balance_value d.size

/-- One face-editing operation on a die. -/
inductive FaceOp where
  | add (f : DiceFace)
  | remove (i : Int)
  | replace (i : Int) (f : DiceFace)
deriving DecidableEq

/-- Run one face-editing operation (keeping the updated die). -/
def applyFaceOp (d : Dice) : FaceOp → Dice
  | FaceOp.add f => (d.add_face f).2
  | FaceOp.remove i => (d.remove_face i).2
  | FaceOp.replace i f => (d.replace_face i f).2

/-- Run a sequence of face-editing operations. -/
def applyFaceOps (d : Dice) (ops : List FaceOp) : Dice := ops.foldl applyFaceOp d

/-- The non-critical COMBAT damage formula claim C4 asserts:
`floor(physical_damage × multiplier) + face value`, multiplier 1.5 for a
"Heavy" name, 0.8 for a "Quick" name, 1 otherwise. -/
def claimedCombatDamage (physical_damage : Int) (face_name : String) (face_value : Int) : Int :=
  Int.floor ((physical_damage : ℚ) *
    (if strContains face_name "Heavy" then 3 / 2
     else if strContains face_name "Quick" then 4 / 5 else 1)) + face_value

/-- Fixture: a one-face die sitting on cooldown 2. -/
def exCooldownDie : Dice :=
  { name := "d", dice_type := DiceType.COMBAT, size := 1,
    faces := [{ name := "A", value := 1, category := FaceCategory.COMBAT }], cooldown := 2 }

/-- Fixture: a fresh default-stats player character. -/
def exHero : Character := { name := "Hero" }

/-- Fixture: a player character missing half of its health. -/
def exHurtHero : Character := { name := "Hero", stats := { health := 50 } }

/-- Fixture: a goblin enemy. -/
def exGoblin : Enemy :=
  { name := "Goblin", enemy_type := EnemyType.GOBLIN, health := 30, max_health := 30, damage := 5 }

/-- Fixture: first face of the tie-breaking die (value −1). -/
def exTieFaceA : DiceFace := { name := "A", value := -1, category := FaceCategory.COMBAT }

/-- Fixture: second face of the tie-breaking die (same value −1). -/
def exTieFaceB : DiceFace := { name := "B", value := -1, category := FaceCategory.COMBAT }

/-- Fixture: an unstable die whose two faces have equal values. -/
def exTieDie : Dice := mkDice "t" DiceType.COMBAT 2 [exTieFaceA, exTieFaceB]

/-- Fixture: roll oracle triggering the unstable check and drawing face 0 then face 1. -/
def exTieRng : RollRng := { u := 0, i1 := 0, i2 := 1, i3 := 0 }

/-- Fixture: an unstable die with faces of distinct values −1 and −3. -/
def exUnstableDie : Dice :=
  mkDice "u" DiceType.COMBAT 2
    [{ name := "U1", value := -1, category := FaceCategory.COMBAT },
     { name := "U2", value := -3, category := FaceCategory.COMBAT }]

/-- An enemy the registry classifies as a boss by one of the three source
routes: a name override mapping to "boss", the boss-name substring pattern, or
a type whose default behavior map entry is "boss" (Dragon in the initial map). -/
def bossClassified (ai : EnemyAIState) (e : Enemy) : Prop :=
  dictGetStr ai.custom_behaviors e.name = some "boss" ∨
  (dictGetStr ai.custom_behaviors e.name = none ∧ bossNamePattern e.name = true) ∨
  (dictGetStr ai.custom_behaviors e.name = none ∧ e.enemy_type = EnemyType.DRAGON ∧
    dictGetType ai.enemy_type_behaviors EnemyType.DRAGON = some "boss")

/-- Fixture: a dragon boss at health fraction 0.25 (phase 3). -/
def exBossEnemy : Enemy :=
  { name := "Dragon", enemy_type := EnemyType.DRAGON, health := 25, max_health := 100,
    damage := 10 }

/-- Fixture: a boss-named enemy of a non-boss type. -/
def exBossKing : Enemy :=
  { name := "Goblin King", enemy_type := EnemyType.GOBLIN, health := 50, max_health := 50,
    damage := 5 }

/-- Fixture: one available die carrying an "Ultimate"-named face of value 5. -/
def exBossDice : List AvailableDie :=
  [(DiceType.COMBAT, 0,
    { faces := [{ name := "Ultimate Blast", value := 5, category := "COMBAT" }] })]

theorem pyInt_of_nonneg (q : ℚ) (h : 0 ≤ q) : pyInt q = Int.floor q := by
  unfold pyInt
  rw [if_neg (not_lt.mpr h)]

theorem calculate_balance_balanced (d : Dice) : balancedInv d.calculate_balance := by
  unfold Dice.calculate_balance
  by_cases h0 : (d.faces.map DiceFace.value).sum = 0
  · simp [balancedInv, imbalanceOf, h0]
  · by_cases hneg : (d.faces.map DiceFace.value).sum < 0
    · simp [balancedInv, imbalanceOf, h0, hneg]
    · simp [balancedInv, imbalanceOf, h0, hneg]

theorem applyFaceOp_balanced (d : Dice) (h : balancedInv d) (op : FaceOp) :
    balancedInv (applyFaceOp d op) := by
  cases op with
  | add f =>
    show balancedInv (d.add_face f).2
    unfold Dice.add_face
    split
    · exact h
    · exact calculate_balance_balanced _
  | remove i =>
    show balancedInv (d.remove_face i).2
    unfold Dice.remove_face
    split
    · exact calculate_balance_balanced _
    · exact h
  | replace i f =>
    show balancedInv (d.replace_face i f).2
    unfold Dice.replace_face
    split
    · exact calculate_balance_balanced _
    · exact h

theorem mkDice_balanced (name : String) (dt : DiceType) (size : Nat)
    (faces : List DiceFace) : balancedInv (mkDice name dt size faces) := by
  unfold mkDice Dice.post_init
  split
  · rename_i hnil
    dsimp only at hnil
    subst hnil
    simp [balancedInv, imbalanceOf]
  · exact calculate_balance_balanced _

/-- C3: for every die (as constructed by the dataclass) and every sequence of
`add_face`/`remove_face`/`replace_face` operations, `balance_value` equals the
sum of the current face values and `(imbalance_effect, imbalance_severity)` is
the pure function `imbalanceOf` of `balance_value` and `size`
(`0 ↦ (NONE, 0)`, negative ↦ `(UNSTABLE, min 1 (|bv|/(2·size)))`,
positive ↦ `(OVERLOADED, min 1 (bv/(2·size)))`). -/
theorem C3_balance_invariant :
    (∀ (name : String) (dt : DiceType) (size : Nat) (faces : List DiceFace),
      balancedInv (mkDice name dt size faces)) ∧
    (∀ (d : Dice), balancedInv d → ∀ (ops : List FaceOp), balancedInv (applyFaceOps d ops)) := by
  constructor
  · exact mkDice_balanced
  · intro d h ops
    induction ops generalizing d with
    | nil => exact h
    | cons op rest ih => exact ih _ (applyFaceOp_balanced d h op)

/-- C3 witness: the claim's example die (face values [2,1,1,-1,-2,-1], size 6)
satisfies the invariant, and still does after replacing a −1 face by a −3 one. -/
theorem C3_balance_invariant_witness :
    balancedInv (mkDice "d6" DiceType.COMBAT 6
      [{ name := "f1", value := 2, category := FaceCategory.COMBAT },
       { name := "f2", value := 1, category := FaceCategory.COMBAT },
       { name := "f3", value := 1, category := FaceCategory.COMBAT },
       { name := "f4", value := -1, category := FaceCategory.COMBAT },
       { name := "f5", value := -2, category := FaceCategory.COMBAT },
       { name := "f6", value := -1, category := FaceCategory.COMBAT }]) ∧
    balancedInv (applyFaceOps (mkDice "d6" DiceType.COMBAT 6
      [{ name := "f1", value := 2, category := FaceCategory.COMBAT },
       { name := "f2", value := 1, category := FaceCategory.COMBAT },
       { name := "f3", value := 1, category := FaceCategory.COMBAT },
       { name := "f4", value := -1, category := FaceCategory.COMBAT },
       { name := "f5", value := -2, category := FaceCategory.COMBAT },
       { name := "f6", value := -1, category := FaceCategory.COMBAT }])
      [FaceOp.replace 3 { name := "f4b", value := -3, category := FaceCategory.COMBAT }]) :=
  ⟨C3_balance_invariant.1 _ _ _ _,
   C3_balance_invariant.2 _ (C3_balance_invariant.1 _ _ _ _) _⟩

/-- C1 counterexample: a single `add_xp 250` against the initial threshold 100
levels up exactly once and leaves `xp = 150` equal to the new threshold 150, so
the resulting xp does not lie in `[0, xp_to_next_level)`. -/
theorem C1_counterexample :
    ((Dice.add_xp { name := "d", dice_type := DiceType.COMBAT, size := 6 } 250).2.xp = 150 ∧
     (Dice.add_xp { name := "d", dice_type := DiceType.COMBAT, size := 6 } 250).2.level = 2 ∧
     (Dice.add_xp { name := "d", dice_type := DiceType.COMBAT, size := 6 } 250).2.xp_to_next_level
       = 150 ∧
     ¬ ((Dice.add_xp { name := "d", dice_type := DiceType.COMBAT, size := 6 } 250).2.xp
         < (Dice.add_xp { name := "d", dice_type := DiceType.COMBAT, size := 6 } 250).2.xp_to_next_level)) := by
  norm_num [Dice.add_xp, Dice.level_up, pyInt]

/-- C1 (amended): on both a die and the player character, one `add_xp` call
applies at most one level-up: if the post-award xp reaches the threshold, the
level increases by exactly 1, the threshold is subtracted from xp once, and the
threshold becomes `int(threshold · 1.5)`; otherwise nothing but xp changes. The
resulting xp can therefore equal or exceed the new threshold after a large
single award. -/
theorem C1_single_step_leveling :
    (∀ (d : Dice) (amount : Int),
      (d.add_xp amount).2 =
        if d.xp_to_next_level ≤ d.xp + amount then
          { d with xp := d.xp + amount - d.xp_to_next_level,
                   level := d.level + 1,
                   xp_to_next_level := pyInt ((d.xp_to_next_level : ℚ) * (3 / 2)) }
        else { d with xp := d.xp + amount }) ∧
    (∀ (c : Character) (amount : Int),
      ((c.add_xp amount).2.level =
          if c.xp_to_next_level ≤ c.xp + amount then c.level + 1 else c.level) ∧
      ((c.add_xp amount).2.xp =
          if c.xp_to_next_level ≤ c.xp + amount then c.xp + amount - c.xp_to_next_level
          else c.xp + amount) ∧
      ((c.add_xp amount).2.xp_to_next_level =
          if c.xp_to_next_level ≤ c.xp + amount then pyInt ((c.xp_to_next_level : ℚ) * (3 / 2))
          else c.xp_to_next_level)) := by
  constructor
  · intro d amount
    by_cases hc : d.xp_to_next_level ≤ d.xp + amount
    · simp [Dice.add_xp, Dice.level_up, hc]
    · simp [Dice.add_xp, hc]
  · intro c amount
    by_cases hc : c.xp_to_next_level ≤ c.xp + amount
    · simp [Character.add_xp, Character.level_up, hc]
    · simp [Character.add_xp, hc]

/-- C6: rolling a die that has faces and cooldown `k > 0` yields no face,
reports the pre-decrement cooldown `k` in the message, decrements the cooldown
to `k − 1`, and leaves xp and level unchanged. -/
theorem C6_cooldown_roll (d : Dice) (rng : RollRng) (k : Int)
    (hfaces : d.faces ≠ []) (hcd : d.cooldown = k) (hk : 0 < k) :
    ((d.roll rng).1.1 = none ∧
     (d.roll rng).1.2.1 = d.name ++ " is on cooldown for " ++ toString k ++ " more turns." ∧
     (d.roll rng).2.cooldown = k - 1 ∧
     (d.roll rng).2.xp = d.xp ∧
     (d.roll rng).2.level = d.level) := by
  have hpos : 0 < d.cooldown := hcd ▸ hk
  have harith : d.cooldown - 1 + 1 = k := by omega
  unfold Dice.roll
  rw [if_neg hfaces, if_pos hpos]
  refine ⟨rfl, ?_, by simp [hcd], rfl, rfl⟩
  simp [harith]

/-- C6 witness: a one-face die with cooldown 2. -/
theorem C6_cooldown_roll_witness :
    (exCooldownDie.faces ≠ [] ∧ exCooldownDie.cooldown = 2 ∧ (0 : Int) < 2) ∧
    (((exCooldownDie.roll {}).1.1 = none ∧
      (exCooldownDie.roll {}).1.2.1 =
        exCooldownDie.name ++ " is on cooldown for " ++ toString (2 : Int) ++ " more turns." ∧
      (exCooldownDie.roll {}).2.cooldown = 2 - 1 ∧
      (exCooldownDie.roll {}).2.xp = exCooldownDie.xp ∧
      (exCooldownDie.roll {}).2.level = exCooldownDie.level)) :=
  ⟨⟨by decide, rfl, by decide⟩, C6_cooldown_roll exCooldownDie {} 2 (by decide) rfl (by decide)⟩

/-- C7: `player_turn` with an empty enemy list or an out-of-range target index
fails with the "Invalid target!" result and mutates nothing: the player (hence
every die) and the enemies and the combat log are returned unchanged. -/
theorem C7_invalid_target (log : List String) (player : Character) (enemies : List Enemy)
    (dt : DiceType) (dice_index target_index : Int) (rng : CombatRng)
    (h : enemies = [] ∨ target_index < 0 ∨ (enemies.length : Int) ≤ target_index) :
    ((CombatSystem.player_turn log player enemies dt dice_index target_index rng).result =
        { success := false, message := "Invalid target!" } ∧
     (CombatSystem.player_turn log player enemies dt dice_index target_index rng).player
        = player ∧
     (CombatSystem.player_turn log player enemies dt dice_index target_index rng).enemies
        = enemies ∧
     (CombatSystem.player_turn log player enemies dt dice_index target_index rng).log = log) := by
  unfold CombatSystem.player_turn
  rw [if_pos h]
  exact ⟨rfl, rfl, rfl, rfl⟩

/-- C7 witness: an empty enemy list. -/
theorem C7_invalid_target_witness :
    (([] : List Enemy) = [] ∨ (0 : Int) < 0 ∨ (([] : List Enemy).length : Int) ≤ 0) ∧
    ((CombatSystem.player_turn [] { name := "Hero" } [] DiceType.COMBAT 0 0 {}).result =
        { success := false, message := "Invalid target!" } ∧
     (CombatSystem.player_turn [] { name := "Hero" } [] DiceType.COMBAT 0 0 {}).player
        = { name := "Hero" } ∧
     (CombatSystem.player_turn [] { name := "Hero" } [] DiceType.COMBAT 0 0 {}).enemies = [] ∧
     (CombatSystem.player_turn [] { name := "Hero" } [] DiceType.COMBAT 0 0 {}).log = []) :=
  ⟨Or.inl rfl, C7_invalid_target [] { name := "Hero" } [] DiceType.COMBAT 0 0 {} (Or.inl rfl)⟩

/-- C2 counterexample: on an unstable double roll whose two drawn faces tie in
value, the code resolves to the second drawn face, not the first one the claim
names (faces "A" and "B" both of value −1; drawing A then B returns B). -/
theorem C2_counterexample :
    (exTieDie.imbalance_effect = ImbalanceEffect.UNSTABLE ∧
     pyChoiceFace exTieDie.faces exTieRng.i1 = exTieFaceA ∧
     pyChoiceFace exTieDie.faces exTieRng.i2 = exTieFaceB ∧
     (pyChoiceFace exTieDie.faces exTieRng.i1).value
       = (pyChoiceFace exTieDie.faces exTieRng.i2).value ∧
     (exTieDie.roll exTieRng).1.1 = some exTieFaceB ∧
     (exTieDie.roll exTieRng).1.1 ≠ some exTieFaceA) := by
  have hu : exTieRng.u < exTieDie.imbalance_severity := by
    norm_num [exTieRng, exTieDie, exTieFaceA, exTieFaceB, mkDice, Dice.post_init,
      Dice.calculate_balance, lt_min_iff, List.cons_ne_nil]
  have hroll : (exTieDie.roll exTieRng).1.1 = some exTieFaceB := by
    unfold Dice.roll
    rw [if_neg (by decide), if_neg (by decide), if_pos ⟨by decide, hu⟩]
    decide
  exact ⟨by decide, by decide, by decide, by decide, hroll, by rw [hroll]; decide⟩

/-- C2 (amended): for an unstable, non-empty, off-cooldown die whose severity
check triggers, `roll` draws two faces (with replacement) from the full face
set, returns the one with the lower value — ties resolved to the *second*
drawn face — tags the result with "Unstable: Double Roll", and leaves the die
(in particular xp and level) unchanged. -/
theorem C2_unstable_double_roll (d : Dice) (rng : RollRng)
    (hfaces : d.faces ≠ []) (hcd : d.cooldown ≤ 0)
    (heff : d.imbalance_effect = ImbalanceEffect.UNSTABLE)
    (hu : rng.u < d.imbalance_severity) :
    ((d.roll rng).1.1 =
        some (if (pyChoiceFace d.faces rng.i1).value < (pyChoiceFace d.faces rng.i2).value
          then pyChoiceFace d.faces rng.i1 else pyChoiceFace d.faces rng.i2) ∧
     ((pyChoiceFace d.faces rng.i1).value = (pyChoiceFace d.faces rng.i2).value →
        (d.roll rng).1.1 = some (pyChoiceFace d.faces rng.i2)) ∧
     (d.roll rng).1.2.2 = ["Unstable: Double Roll"] ∧
     (d.roll rng).2 = d) := by
  unfold Dice.roll
  rw [if_neg hfaces, if_neg (by omega : ¬ 0 < d.cooldown), if_pos ⟨heff, hu⟩]
  dsimp only
  refine ⟨rfl, ?_, rfl, rfl⟩
  intro hv
  rw [if_neg (not_lt.mpr (le_of_eq hv.symm))]

/-- C2 witness: the unstable fixture die with distinct face values −1 and −3. -/
theorem C2_unstable_double_roll_witness :
    (exUnstableDie.faces ≠ [] ∧ exUnstableDie.cooldown ≤ 0 ∧
     exUnstableDie.imbalance_effect = ImbalanceEffect.UNSTABLE ∧
     exTieRng.u < exUnstableDie.imbalance_severity) ∧
    ((exUnstableDie.roll exTieRng).1.1 =
        some (if (pyChoiceFace exUnstableDie.faces exTieRng.i1).value
              < (pyChoiceFace exUnstableDie.faces exTieRng.i2).value
          then pyChoiceFace exUnstableDie.faces exTieRng.i1
          else pyChoiceFace exUnstableDie.faces exTieRng.i2) ∧
     ((pyChoiceFace exUnstableDie.faces exTieRng.i1).value
        = (pyChoiceFace exUnstableDie.faces exTieRng.i2).value →
        (exUnstableDie.roll exTieRng).1.1
          = some (pyChoiceFace exUnstableDie.faces exTieRng.i2)) ∧
     (exUnstableDie.roll exTieRng).1.2.2 = ["Unstable: Double Roll"] ∧
     (exUnstableDie.roll exTieRng).2 = exUnstableDie) :=
  ⟨⟨by decide, by decide, by decide,
    by norm_num [exTieRng, exUnstableDie, mkDice, Dice.post_init,
      Dice.calculate_balance, lt_min_iff, List.cons_ne_nil]⟩,
   C2_unstable_double_roll exUnstableDie exTieRng (by decide) (by decide) (by decide)
     (by norm_num [exTieRng, exUnstableDie, mkDice, Dice.post_init,
       Dice.calculate_balance, lt_min_iff, List.cons_ne_nil])⟩

/-- C4: resolving a COMBAT face (with non-negative physical damage and crit
multiplier, as all reachable stats are) deals
`floor(physical_damage × multiplier) + face value` without a critical hit, that
value times `crit_damage` floored on a critical hit, and sets the target's
health to the damage subtracted from it, clamped at 0; `target_defeated` holds
exactly when the subtraction reaches 0. -/
theorem C4_combat_damage (log : List String) (player : Character) (target : Enemy)
    (face_name : String) (face_value : Int) (critU : ℚ)
    (hpd : 0 ≤ player.stats.physical_damage) (hcd : 0 ≤ player.stats.crit_damage) :
    (let base := claimedCombatDamage player.stats.physical_damage face_name face_value
     let o := CombatSystem.handle_combat_face log player target face_name face_value critU
     (¬ critU < player.stats.crit_chance → o.result.damage_dealt = base) ∧
     (critU < player.stats.crit_chance → 0 ≤ base →
        o.result.damage_dealt = Int.floor ((base : ℚ) * player.stats.crit_damage)) ∧
     o.target.health = max 0 (target.health - o.result.damage_dealt) ∧
     (o.result.target_defeated = true ↔ target.health - o.result.damage_dealt ≤ 0)) := by
  have hm : (0:ℚ) ≤ (if strContains face_name "Heavy" then (3/2:ℚ)
      else if strContains face_name "Quick" then (4/5:ℚ) else 1) := by
    split
    · norm_num
    · split <;> norm_num
  have hbase : pyInt ((player.stats.physical_damage : ℚ) *
      (if strContains face_name "Heavy" then (3/2:ℚ)
       else if strContains face_name "Quick" then (4/5:ℚ) else 1)) =
      Int.floor ((player.stats.physical_damage : ℚ) *
      (if strContains face_name "Heavy" then (3/2:ℚ)
       else if strContains face_name "Quick" then (4/5:ℚ) else 1)) :=
    pyInt_of_nonneg _ (mul_nonneg (by exact_mod_cast hpd) hm)
  unfold CombatSystem.handle_combat_face claimedCombatDamage
  dsimp only
  rw [hbase]
  set D : Int := if critU < player.stats.crit_chance then
      pyInt ((((Int.floor ((player.stats.physical_damage : ℚ) *
        (if strContains face_name "Heavy" then (3/2:ℚ)
         else if strContains face_name "Quick" then (4/5:ℚ) else 1)) + face_value) : Int) : ℚ)
         * player.stats.crit_damage)
    else Int.floor ((player.stats.physical_damage : ℚ) *
        (if strContains face_name "Heavy" then (3/2:ℚ)
         else if strContains face_name "Quick" then (4/5:ℚ) else 1)) + face_value with hD
  refine ⟨?_, ?_, ?_, ?_⟩
  · intro h
    rw [hD, if_neg h]
  · intro h hb
    rw [hD, if_pos h, pyInt_of_nonneg _ (mul_nonneg (by exact_mod_cast hb) hcd)]
  · by_cases hdef : target.health - D ≤ 0
    · simp only [decide_eq_true hdef, if_true, eq_self_iff_true]
      omega
    · simp only [decide_eq_false hdef, Bool.false_eq_true, if_false]
      omega
  · by_cases hdef : target.health - D ≤ 0
    · simp [hdef]
    · simp [hdef]

/-- C4 witness: the spec's example — default stats (physical damage 10), a
"Heavy Strike" face of value 2, no critical hit. -/
theorem C4_combat_damage_witness :
    ((0 : Int) ≤ exHero.stats.physical_damage ∧ (0:ℚ) ≤ exHero.stats.crit_damage) ∧
    (let base := claimedCombatDamage exHero.stats.physical_damage "Heavy Strike" 2
     let o := CombatSystem.handle_combat_face [] exHero exGoblin "Heavy Strike" 2 1
     (¬ (1:ℚ) < exHero.stats.crit_chance → o.result.damage_dealt = base) ∧
     ((1:ℚ) < exHero.stats.crit_chance → 0 ≤ base →
        o.result.damage_dealt = Int.floor ((base : ℚ) * exHero.stats.crit_damage)) ∧
     o.target.health = max 0 (exGoblin.health - o.result.damage_dealt) ∧
     (o.result.target_defeated = true ↔ exGoblin.health - o.result.damage_dealt ≤ 0)) :=
  ⟨⟨by decide, by norm_num [exHero]⟩,
   C4_combat_damage [] exHero exGoblin "Heavy Strike" 2 1 (by decide) (by norm_num [exHero])⟩

/-- C5: an EFFECT face whose name contains "Heal" heals nominally
`30 + 2·value` for a "Major" name and `15 + value` otherwise, clamps health at
`max_health`, reports the actual post-clamp delta in both `healing_done` and
the message, and leaves the target untouched. -/
theorem C5_healing_clamped (log : List String) (player : Character) (target : Enemy)
    (face_name : String) (face_value : Int)
    (hheal : strContains face_name "Heal" = true) :
    (let amt := if strContains face_name "Major" then 30 + face_value * 2 else 15 + face_value
     let o := CombatSystem.handle_effect_face log player target face_name face_value
     o.player.stats.health = min (player.stats.health + amt) player.stats.max_health ∧
     o.player.stats.health ≤ player.stats.max_health ∧
     o.player.stats.max_health = player.stats.max_health ∧
     o.result.healing_done = o.player.stats.health - player.stats.health ∧
     o.result.message =
       face_name ++ " restores " ++ toString o.result.healing_done ++ " health" ∧
     o.target = target) := by
  unfold CombatSystem.handle_effect_face CombatSystem.handle_healing
  simp only [hheal, if_true]
  refine ⟨?_, ?_, ?_, ?_, ?_, ?_⟩ <;> first | trivial | exact min_le_right _ _

/-- C5 witness: a "Minor Heal" face of value 3 on a half-health player. -/
theorem C5_healing_clamped_witness :
    (strContains "Minor Heal" "Heal" = true) ∧
    (let amt := if strContains "Minor Heal" "Major" then 30 + (3:Int) * 2 else 15 + 3
     let o := CombatSystem.handle_effect_face [] exHurtHero exGoblin "Minor Heal" 3
     o.player.stats.health = min (exHurtHero.stats.health + amt) exHurtHero.stats.max_health ∧
     o.player.stats.health ≤ exHurtHero.stats.max_health ∧
     o.player.stats.max_health = exHurtHero.stats.max_health ∧
     o.result.healing_done = o.player.stats.health - exHurtHero.stats.health ∧
     o.result.message =
       "Minor Heal" ++ " restores " ++ toString o.result.healing_done ++ " health" ∧
     o.target = exGoblin) :=
  ⟨by decide, C5_healing_clamped [] exHurtHero exGoblin "Minor Heal" 3 (by decide)⟩

/-- C8 counterexample: the face "Stunning Heal" contains "Stun", but the effect
dispatch checks "Heal" first, so the healing path runs and no status is
reported — contradicting the claim that every Stun-named EFFECT face yields
`status_applied = Stunned`. -/
theorem C8_counterexample :
    (strContains "Stunning Heal" "Stun" = true ∧
     (CombatSystem.handle_effect_face [] exHero exGoblin "Stunning Heal" 0).result.status_applied
       = none) := by
  exact ⟨by decide, by decide⟩

/-- C8 (amended): for EFFECT faces dispatched by the source's priority order
(Heal before Bleed before Poison before Stun), a face whose name avoids the
earlier keywords and contains "Bleed"/"Poison"/"Stun" yields a successful
result flagging Bleeding/Poisoned/Stunned with a message naming 3/3/1 turns,
while the target (and player) state is not mutated — application is
message-only. -/
theorem C8_status_message_only (log : List String) (player : Character) (target : Enemy)
    (face_name : String) (face_value : Int)
    (hH : strContains face_name "Heal" = false) :
    (let o := CombatSystem.handle_effect_face log player target face_name face_value
     (strContains face_name "Bleed" = true →
        o.result.success = true ∧ o.result.status_applied = some "Bleeding" ∧
        o.result.message = face_name ++ " applies " ++ "Bleeding" ++ " to " ++ target.name ++ " for "
          ++ toString (3:Int) ++ " turns" ∧
        o.target = target ∧ o.player = player) ∧
     (strContains face_name "Bleed" = false → strContains face_name "Poison" = true →
        o.result.success = true ∧ o.result.status_applied = some "Poisoned" ∧
        o.result.message = face_name ++ " applies " ++ "Poisoned" ++ " to " ++ target.name ++ " for "
          ++ toString (3:Int) ++ " turns" ∧
        o.target = target ∧ o.player = player) ∧
     (strContains face_name "Bleed" = false → strContains face_name "Poison" = false →
        strContains face_name "Stun" = true →
        o.result.success = true ∧ o.result.status_applied = some "Stunned" ∧
        o.result.message = face_name ++ " applies " ++ "Stunned" ++ " to " ++ target.name ++ " for "
          ++ toString (1:Int) ++ " turns" ∧
        o.target = target ∧ o.player = player)) := by
  unfold CombatSystem.handle_effect_face CombatSystem.handle_status_effect
  simp only [hH, Bool.false_eq_true, if_false]
  refine ⟨?_, ?_, ?_⟩
  · intro hB
    simp only [hB, if_true]
    refine ⟨?_, ?_, ?_, ?_, ?_⟩ <;> trivial
  · intro hB hP
    simp only [hB, hP, Bool.false_eq_true, if_false, if_true]
    refine ⟨?_, ?_, ?_, ?_, ?_⟩ <;> trivial
  · intro hB hP hS
    simp only [hB, hP, hS, Bool.false_eq_true, if_false, if_true]
    refine ⟨?_, ?_, ?_, ?_, ?_⟩ <;> trivial

/-- C8 witness: a "Bleed Strike" face (no "Heal" in the name). -/
theorem C8_status_message_only_witness :
    (strContains "Bleed Strike" "Heal" = false) ∧
    (let o := CombatSystem.handle_effect_face [] exHero exGoblin "Bleed Strike" 1
     (strContains "Bleed Strike" "Bleed" = true →
        o.result.success = true ∧ o.result.status_applied = some "Bleeding" ∧
        o.result.message = "Bleed Strike" ++ " applies " ++ "Bleeding" ++ " to " ++ exGoblin.name ++ " for "
          ++ toString (3:Int) ++ " turns" ∧
        o.target = exGoblin ∧ o.player = exHero) ∧
     (strContains "Bleed Strike" "Bleed" = false → strContains "Bleed Strike" "Poison" = true →
        o.result.success = true ∧ o.result.status_applied = some "Poisoned" ∧
        o.result.message = "Bleed Strike" ++ " applies " ++ "Poisoned" ++ " to " ++ exGoblin.name ++ " for "
          ++ toString (3:Int) ++ " turns" ∧
        o.target = exGoblin ∧ o.player = exHero) ∧
     (strContains "Bleed Strike" "Bleed" = false → strContains "Bleed Strike" "Poison" = false →
        strContains "Bleed Strike" "Stun" = true →
        o.result.success = true ∧ o.result.status_applied = some "Stunned" ∧
        o.result.message = "Bleed Strike" ++ " applies " ++ "Stunned" ++ " to " ++ exGoblin.name ++ " for "
          ++ toString (1:Int) ++ " turns" ∧
        o.target = exGoblin ∧ o.player = exHero)) :=
  ⟨by decide, C8_status_message_only [] exHero exGoblin "Bleed Strike" 1 (by decide)⟩

theorem contains_append_self (l : List String) (a : String) : (l ++ [a]).contains a = true := by
  simp [List.contains, List.elem_eq_mem]

theorem ultimateLookup_key_unused (used : List String) (enemy_dice : List AvailableDie)
    (p : DiceType × Nat) (h : ultimateLookup used enemy_dice = some p) :
    used.contains (ultimateKey p.1 p.2) = false := by
  unfold ultimateLookup at h
  cases hfind : enemy_dice.find? (fun e =>
      e.2.2.faces.any (fun f => strContains f.name "Ultimate" && 4 ≤ f.value)
        && !(used.contains (ultimateKey e.1 e.2.1))) with
  | none => rw [hfind] at h; simp at h
  | some e =>
    rw [hfind] at h
    simp only [Option.map_some'] at h
    have hp := List.find?_some hfind
    simp only [Bool.and_eq_true, Bool.not_eq_true'] at hp
    cases h
    exact hp.2

theorem bossDecide_phase3_ultimate (st : BossState) (enemy : Enemy) (player : Character)
    (enemy_dice : List AvailableDie) (rng : TacRng) (p : DiceType × Nat)
    (hne : enemy_dice ≠ [])
    (hhp : (enemy.health : ℚ) / (enemy.max_health : ℚ) < 3 / 10)
    (hlook : ultimateLookup (if st.phase = 3 then st.phase_abilities_used else []) enemy_dice
      = some p) :
    bossDecide st enemy player enemy_dice rng =
      (p, { turn_count := st.turn_count + 1, phase := 3,
            phase_abilities_used :=
              (if st.phase = 3 then st.phase_abilities_used else [])
                ++ [ultimateKey p.1 p.2] }) := by
  unfold bossDecide
  rw [if_neg hne]
  dsimp only
  rw [if_pos hhp]
  by_cases hph : st.phase = 3
  · rw [if_neg (by simp [hph] : ¬ ((3:Int) ≠ st.phase))]
    rw [if_pos hph] at hlook
    dsimp only
    rw [if_pos hph, hlook]
    rw [if_pos hph]
    rw [hph]
  · rw [if_pos (Ne.symm hph)]
    rw [if_neg hph] at hlook
    dsimp only
    rw [hlook]
    rw [if_neg hph]
    rw [if_pos rfl]

/-- C9: in phase 3 (enemy health fraction < 0.3) with an unused qualifying
"Ultimate" die available (`ultimateLookup` is the phase-3 search of
`BossBehavior.decide_action`), the boss selects that die and marks its key
used; the ultimate search of any subsequent call in the same phase — same
available dice, health still below 0.3 so the used-set is not reset — can no
longer return that die, so it is selected via the ultimate rule at most once
per phase. -/
theorem C9_boss_ultimate_once (st : BossState) (enemy enemy2 : Enemy)
    (player player2 : Character) (enemy_dice : List AvailableDie) (rng rng2 : TacRng)
    (p : DiceType × Nat)
    (hne : enemy_dice ≠ [])
    (hhp : (enemy.health : ℚ) / (enemy.max_health : ℚ) < 3 / 10)
    (hlook : ultimateLookup (if st.phase = 3 then st.phase_abilities_used else []) enemy_dice
      = some p) :
    (let r := bossDecide st enemy player enemy_dice rng
     r.1 = p ∧
     r.2.phase = 3 ∧
     r.2.phase_abilities_used.contains (ultimateKey p.1 p.2) = true ∧
     (∀ q, ultimateLookup r.2.phase_abilities_used enemy_dice = some q → q ≠ p) ∧
     ((enemy2.health : ℚ) / (enemy2.max_health : ℚ) < 3 / 10 →
       ∀ q, ultimateLookup r.2.phase_abilities_used enemy_dice = some q →
         (bossDecide r.2 enemy2 player2 enemy_dice rng2).1 = q ∧ q ≠ p)) := by
  rw [bossDecide_phase3_ultimate st enemy player enemy_dice rng p hne hhp hlook]
  have hnotp : ∀ q, ultimateLookup
      ((if st.phase = 3 then st.phase_abilities_used else []) ++ [ultimateKey p.1 p.2])
      enemy_dice = some q → q ≠ p := by
    intro q hq hqp
    have hun := ultimateLookup_key_unused _ _ _ hq
    rw [hqp] at hun
    rw [contains_append_self] at hun
    exact Bool.true_eq_false ▸ hun
  refine ⟨rfl, rfl, contains_append_self _ _, hnotp, ?_⟩
  intro hhp2 q hq
  refine ⟨?_, hnotp q hq⟩
  rw [bossDecide_phase3_ultimate _ enemy2 player2 enemy_dice rng2 q hne hhp2
    (by rw [if_pos rfl]; exact hq)]

/-- C9 witness: a fresh boss state against the dragon fixture at health 0.25
with one "Ultimate Blast" (value 5) die available. -/
theorem C9_boss_ultimate_once_witness :
    (exBossDice ≠ [] ∧
     (exBossEnemy.health : ℚ) / (exBossEnemy.max_health : ℚ) < 3 / 10 ∧
     ultimateLookup (if ({} : BossState).phase = 3
         then ({} : BossState).phase_abilities_used else []) exBossDice
       = some (DiceType.COMBAT, 0)) ∧
    (let r := bossDecide {} exBossEnemy exHero exBossDice {}
     r.1 = (DiceType.COMBAT, 0) ∧
     r.2.phase = 3 ∧
     r.2.phase_abilities_used.contains (ultimateKey DiceType.COMBAT 0) = true ∧
     (∀ q, ultimateLookup r.2.phase_abilities_used exBossDice = some q
        → q ≠ (DiceType.COMBAT, 0)) ∧
     ((exBossEnemy.health : ℚ) / (exBossEnemy.max_health : ℚ) < 3 / 10 →
       ∀ q, ultimateLookup r.2.phase_abilities_used exBossDice = some q →
         (bossDecide r.2 exBossEnemy exHero exBossDice {}).1 = q
           ∧ q ≠ (DiceType.COMBAT, 0))) :=
  ⟨⟨by decide, by norm_num [exBossEnemy], by decide⟩,
   C9_boss_ultimate_once {} exBossEnemy exBossEnemy exHero exHero exBossDice {} {}
     (DiceType.COMBAT, 0) (by decide) (by norm_num [exBossEnemy]) (by decide)⟩

theorem getBehaviorKey_boss (ai : EnemyAIState) (e : Enemy) (h : bossClassified ai e) :
    getBehaviorKey ai e = "boss" := by
  unfold getBehaviorKey
  rcases h with h | ⟨h1, h2⟩ | ⟨h1, h2, h3⟩
  · rw [h]
  · rw [h1]
    simp [h2]
  · rw [h1]
    by_cases hp : bossNamePattern e.name
    · simp [hp]
    · simp [hp, h2, h3]

theorem bossDecide_turn_count (st : BossState) (enemy : Enemy) (player : Character)
    (enemy_dice : List AvailableDie) (rng : TacRng) (hne : enemy_dice ≠ []) :
    (bossDecide st enemy player enemy_dice rng).2.turn_count = st.turn_count + 1 := by
  unfold bossDecide
  rw [if_neg hne]
  dsimp only
  repeat' first | rfl | split

/-- C10: the initial registry holds the key "boss" exactly once (its single
`BossBehavior` instance is the registry's one `boss_state`); every
boss-classified enemy — by name override, boss-name pattern, or Dragon-type
default — resolves to that key, and `decide_action` for one boss reads and
writes that shared state: with a non-empty dice list it increments the shared
turn counter, and a subsequent `decide_action` for any other boss-classified
enemy dispatches `bossDecide` on that same updated state. -/
theorem C10_shared_boss_state (ai : EnemyAIState) (e1 e2 : Enemy) (p1 p2 : Character)
    (d1 d2 : List AvailableDie) (r1 r2 : AiRng)
    (h1 : bossClassified ai e1) (h2 : bossClassified ai e2) (hne : d1 ≠ []) :
    (initEnemyAI.behavior_keys.count "boss" = 1 ∧
     getBehaviorKey ai e1 = "boss" ∧ getBehaviorKey ai e2 = "boss" ∧
     (let ai1 := (ai.decide_action e1 p1 d1 r1).2
      ai1.boss_state.turn_count = ai.boss_state.turn_count + 1 ∧
      ai1.decide_action e2 p2 d2 r2 =
        ((bossDecide ai1.boss_state e2 p2 d2 r2.tac).1,
         { ai1 with boss_state := (bossDecide ai1.boss_state e2 p2 d2 r2.tac).2 }))) := by
  have key1 := getBehaviorKey_boss ai e1 h1
  have key2 := getBehaviorKey_boss ai e2 h2
  have hstep : (ai.decide_action e1 p1 d1 r1).2 =
      { ai with boss_state := (bossDecide ai.boss_state e1 p1 d1 r1.tac).2 } := by
    unfold EnemyAIState.decide_action
    rw [key1]
    rw [if_pos rfl]
  refine ⟨rfl, key1, key2, ?_, ?_⟩
  · rw [hstep]
    exact bossDecide_turn_count _ _ _ _ _ hne
  · have h2R : bossClassified
        { ai with boss_state := (bossDecide ai.boss_state e1 p1 d1 r1.tac).2 } e2 := h2
    rw [hstep]
    unfold EnemyAIState.decide_action
    rw [getBehaviorKey_boss _ e2 h2R]
    rw [if_pos rfl]

/-- C10 witness: the initial registry, a Dragon-typed boss and a "Goblin King"
pattern-named boss sharing the one boss state. -/
theorem C10_shared_boss_state_witness :
    (bossClassified initEnemyAI exBossEnemy ∧ bossClassified initEnemyAI exBossKing ∧
     exBossDice ≠ []) ∧
    (initEnemyAI.behavior_keys.count "boss" = 1 ∧
     getBehaviorKey initEnemyAI exBossEnemy = "boss" ∧
     getBehaviorKey initEnemyAI exBossKing = "boss" ∧
     (let ai1 := (initEnemyAI.decide_action exBossEnemy exHero exBossDice {}).2
      ai1.boss_state.turn_count = initEnemyAI.boss_state.turn_count + 1 ∧
      ai1.decide_action exBossKing exHero [] {} =
        ((bossDecide ai1.boss_state exBossKing exHero [] (({} : AiRng)).tac).1,
         { ai1 with
           boss_state :=
             (bossDecide ai1.boss_state exBossKing exHero [] (({} : AiRng)).tac).2 }))) :=
  ⟨⟨Or.inr (Or.inr ⟨rfl, rfl, rfl⟩), Or.inr (Or.inl ⟨rfl, by decide⟩), by decide⟩,
   C10_shared_boss_state initEnemyAI exBossEnemy exBossKing exHero exHero exBossDice [] {} {}
     (Or.inr (Or.inr ⟨rfl, rfl, rfl⟩)) (Or.inr (Or.inl ⟨rfl, by decide⟩)) (by decide)⟩

end DungeonDice
